import Mathlib

/-!
Verification of the Cliniview tiered symptom-to-disease inference pipeline.

This file embeds, in Lean, the decision logic of the four service variants under
`ml/services/`:

* `FinalAugmentedMLSymptomChecker` (`final_augmented_ml_service.py`) — primary tier,
  namespace `FA` below;
* `ColumbiaMLSymptomChecker` (`columbia_ml_symptom_checker.py`) — secondary tier,
  namespace `Col` below;
* `MLSymptomChecker` (`ml_symptom_checker.py`) — legacy tier, namespace `MLC` below;
* `SymptomChecker` (`symptom_checker.py`) — weighted-overlap fallback tier,
  namespace `Ov` below.

Modelling conventions:
* Python floats are modelled as rationals (`ℚ`); the decimal literals of the source
  become the corresponding exact rationals.
* The trained classifier is an external collaborator; each prediction operation is
  parameterised by a function `clf : List ℚ → List ℚ` standing for
  `model.predict_proba([v])[0]`, and by the tier vocabularies (`feature_columns`,
  `label_encoder.classes_`) that are loaded from model files at startup.
* Dictionary lookups with a default, such as `severity_duration_mapping[...].get(w, 1.0)`,
  are modelled by a total function parameter representing the composite
  "lookup with default" map.
* Python `f"{x:.2f}"` / `f"{x:.1f}"` formatting is modelled by exact decimal rendering
  of the (rational) value rounded to the given number of digits; CPython rounds floats
  with round-half-to-even, which agrees with `round` on every value appearing in the
  claims (none sits on a rounding boundary).
* Write-only diagnostic fields of prediction dictionaries (`safety_notes`,
  `original_confidence`, `matching_symptoms`, `description`) are not represented in the
  legacy tier prediction record; no logic of the source reads them back.
-/

/-- `pyInAux needle hay`: `needle` occurs as a contiguous sublist of `hay`. -/
def pyInAux (needle : List Char) : List Char → Bool
  | [] => needle.isEmpty
  | c :: rest => needle.isPrefixOf (c :: rest) || pyInAux needle rest

/-- Python `a in b` on strings: `a` occurs as a substring of `b`. -/
def pyIn (a b : String) : Bool := pyInAux a.data b.data

/-- Python `str.split()` with no argument: split on whitespace runs, dropping empties. -/
def pySplitWs (s : String) : List String := (s.split Char.isWhitespace).filter (fun t => t ≠ "")

/-- Auxiliary for `pyTitle`: the `Bool` records whether the previous char was alphabetic. -/
def pyTitleAux : Bool → List Char → List Char
  | _, [] => []
  | prevAlpha, c :: rest =>
    (if c.isAlpha then (if prevAlpha then c.toLower else c.toUpper) else c)
      :: pyTitleAux c.isAlpha rest

/-- Python `str.title()` on the (ASCII) strings of this code base. -/
def pyTitle (s : String) : String := ⟨pyTitleAux false s.data⟩

/-- Two-digit zero-padded rendering of a natural number below 100. -/
def pad2 (n : ℕ) : String := if n < 10 then "0" ++ toString n else toString n

/-- Python `f"{x:.2f}"` for the nonnegative rationals this pipeline produces. -/
def pyFormat2 (q : ℚ) : String :=
  let n := round (q * 100)
  toString (n / 100) ++ "." ++ pad2 (n % 100).toNat

/-- Python `f"{x:.1f}"` for the nonnegative rationals this pipeline produces. -/
def pyFormat1 (q : ℚ) : String :=
  let n := round (q * 10)
  toString (n / 10) ++ "." ++ toString (n % 10).toNat

/-- Python `round(x, 3)`. -/
def roundTo3 (q : ℚ) : ℚ := (round (q * 1000) : ℚ) / 1000

/-- Stable descending sort by a rational key: Python `list.sort(key=..., reverse=True)`. -/
def sortDescBy {α : Type} (f : α → ℚ) (l : List α) : List α :=
  l.mergeSort (fun a b => decide (f b ≤ f a))

/-- A symptom object `{"name": ..., "severity": ..., "duration": ...}` as consumed by the
enhanced prediction paths (defaults for missing keys are applied by the callers that
build these objects). -/
structure SymptomObj where
  name : String
  severity : String
  duration : String
deriving DecidableEq

namespace FA

/-- `critical_diseases` of `_apply_medical_safety_constraints`. -/
def criticalDiseases : List String :=
  ["myocardial infarction", "heart attack", "stroke", "cerebral",
   "acute", "emergency", "severe", "critical", "life threatening"]

/-- `chronic_diseases` of `_apply_medical_safety_constraints` (declared but never used by
the rules of the source function). -/
def chronicDiseases : List String :=
  ["diabetes", "hypertension", "cancer", "chronic", "arthritis"]

/-- `any(critical in disease_lower for critical in critical_diseases)`. -/
def isCritical (diseaseLower : String) : Bool :=
  criticalDiseases.any (fun c => pyIn c diseaseLower)

/-- Severity multiplier table of `_calculate_enhancement_weight` (`.get(severity.lower(), 1.0)`). -/
def sevMult (severity : String) : ℚ :=
  if severity.toLower = "mild" then 7/10
  else if severity.toLower = "moderate" then 1
  else if severity.toLower = "severe" then 3/2
  else if severity.toLower = "very severe" then 2
  else 1

/-- Duration multiplier table of `_calculate_enhancement_weight` (`.get(duration.lower(), 1.0)`). -/
def durMult (duration : String) : ℚ :=
  if duration.toLower = "less than 1 week" then 4/5
  else if duration.toLower = "1 week" then 1
  else if duration.toLower = "2+ weeks" then 13/10
  else if duration.toLower = "more than 1 month" then 8/5
  else 1

/-- `_calculate_enhancement_weight`: `max(0.5, min(base*sev*dur, 3.0))`. `baseW` stands for
the composite `severity_duration_mapping[name].get('base_weight', 1.0)` lookup. -/
def calculateEnhancementWeight (baseW : ℚ) (severity duration : String) : ℚ :=
  max (1/2) (min (baseW * sevMult severity * durMult duration) 3)

/-- `normalize_symptom_name`: exact lowercase match, then substring containment in either
direction, then shared-word matching; `none` when unmatched. -/
def normalizeSymptomName (cols : List String) (symptom : String) : Option String :=
  let norm := symptom.trim.toLower
  match cols.find? (fun f => f.toLower == norm) with
  | some f => some f
  | none =>
    match cols.find? (fun f => pyIn norm f.toLower || pyIn f.toLower norm) with
    | some f => some f
    | none =>
      let symWords := pySplitWs norm
      cols.find? (fun f => (pySplitWs f.toLower).any (fun t => symWords.contains t))

/-- A processed-symptom record of `_create_feature_vector_enhanced`. -/
structure ProcessedSymptom where
  original : String
  normalized : String
  severity : String
  duration : String
  weight : ℚ
deriving DecidableEq

/-- `_create_feature_vector_enhanced`: returns the feature vector, the enhancement weights
and the processed-symptom records. The vector slot of a matched symptom receives
`weight / 3.0`; unmatched symptoms contribute nothing. -/
def createFeatureVectorEnhanced (cols : List String) (baseW : String → ℚ)
    (objs : List SymptomObj) : List ℚ × List ℚ × List ProcessedSymptom :=
  objs.foldl (fun acc obj =>
    match normalizeSymptomName cols obj.name with
    | some nm =>
      if nm ∈ cols then
        let w := calculateEnhancementWeight (baseW nm) obj.severity obj.duration
        (acc.1.set (cols.indexOf nm) (w / 3), acc.2.1 ++ [w],
         acc.2.2 ++ [⟨obj.name, nm, obj.severity, obj.duration, w⟩])
      else acc
    | none => acc)
    (List.replicate cols.length 0, [], [])

/-- `np.mean(enhancement_weights) if enhancement_weights else 1.0`. -/
def avgWeights (ws : List ℚ) : ℚ := if ws = [] then 1 else ws.sum / ws.length

/-- One iteration of the loop of `_apply_medical_safety_constraints`. -/
def adjustOne (avg : ℚ) (symptomCount : ℕ) (p : String × ℚ) : String × ℚ :=
  let dl := p.1.toLower
  -- Rule 1: single symptom safety
  let c1 := if symptomCount = 1 then
              (if isCritical dl then p.2 * (3/20) else p.2 * (2/5))
            else p.2
  -- Rule 2: enhancement factor influence
  let c2 := if avg > 3/2 then (if isCritical dl then c1 * (6/5) else c1)
            else if avg < 4/5 then (if isCritical dl then c1 * (3/5) else c1)
            else c1
  -- Rule 3: multiple symptom patterns
  let c3 := if 3 ≤ symptomCount then c2 * (11/10) else c2
  -- Rule 4: cap confidence for safety
  (p.1, min c3 (17/20))

/-- `_apply_medical_safety_constraints`. -/
def applyMedicalSafetyConstraints (preds : List (String × ℚ)) (symptomCount : ℕ)
    (weights : List ℚ) : List (String × ℚ) :=
  preds.map (adjustOne (avgWeights weights) symptomCount)

/-- `critical_keywords` of `_get_disease_recommendation`. -/
def recCriticalKeywords : List String :=
  ["myocardial", "heart attack", "stroke", "acute", "emergency"]

/-- `_get_disease_recommendation`. -/
def getDiseaseRecommendation (disease : String) (confidence : ℚ) : String :=
  let dl := disease.toLower
  if recCriticalKeywords.any (fun k => pyIn k dl) then
    if confidence > 3/10 then "⚠️ URGENT: Seek immediate emergency medical attention"
    else "Consult healthcare provider promptly if symptoms persist"
  else if confidence < 2/10 then
    "Low confidence - Monitor symptoms and consult healthcare provider if they worsen"
  else if confidence < 4/10 then
    "Moderate confidence - Consider consulting a healthcare provider"
  else if confidence < 6/10 then
    "High confidence - Recommend consulting a healthcare provider for evaluation"
  else "Very high confidence - Strongly recommend consultation with a healthcare provider"

/-- `_categorize_disease_severity`. -/
def categorizeDiseaseSeverity (disease : String) : String :=
  let dl := disease.toLower
  if ["myocardial", "heart attack", "stroke", "acute"].any (fun k => pyIn k dl) then "critical"
  else if ["chronic", "cancer", "diabetes"].any (fun k => pyIn k dl) then "serious"
  else if ["infection", "inflammatory"].any (fun k => pyIn k dl) then "moderate"
  else "mild"

/-- One formatted prediction of `predict_diseases_enhanced`. -/
structure Pred where
  disease : String
  confidence : ℚ
  confidencePct : String
  recommendation : String
  severityCategory : String
deriving DecidableEq

/-- The response of `predict_diseases_enhanced` (the model-metadata block, which only
echoes vocabulary sizes and training metadata, is not represented). On the error path the
source returns only `predictions`, `model_info` and `error`; the remaining fields are
zero/empty there. -/
structure Result where
  predictions : List Pred
  modelInfo : String
  totalSymptoms : ℕ
  processedSymptoms : ℕ
  enhancementFactor : String
  error : Option String
deriving DecidableEq

/-- `predict_diseases_enhanced`. -/
def predictDiseasesEnhanced (clf : List ℚ → List ℚ) (cols : List String) (baseW : String → ℚ)
    (labels : List String) (objs : List SymptomObj) (topK : ℕ) : Result :=
  if objs = [] then
    { predictions := [], modelInfo := "final_augmented_enhanced", totalSymptoms := 0,
      processedSymptoms := 0, enhancementFactor := "", error := some "No symptoms provided" }
  else
    let v := createFeatureVectorEnhanced cols baseW objs
    let probs := clf v.1
    let avg := avgWeights v.2.1
    let sorted := sortDescBy Prod.snd (labels.zip probs)
    let adjusted := applyMedicalSafetyConstraints sorted objs.length v.2.1
    let top := (sortDescBy Prod.snd adjusted).take topK
    { predictions := top.map (fun p =>
        { disease := p.1, confidence := p.2,
          confidencePct := pyFormat1 (p.2 * 100) ++ "%",
          recommendation := getDiseaseRecommendation p.1 p.2,
          severityCategory := categorizeDiseaseSeverity p.1 }),
      modelInfo := "final_augmented_enhanced",
      totalSymptoms := objs.length,
      processedSymptoms := v.2.2.length,
      enhancementFactor := pyFormat2 avg ++ "x",
      error := none }

/-- The conversion loop of `predict_diseases_legacy`. -/
def legacyConvert (symptoms : List String) : List SymptomObj :=
  symptoms.foldl (fun acc s => acc ++ [⟨s, "moderate", "1 week"⟩]) []

/-- `predict_diseases_legacy`: convert plain strings and call the enhanced path with its
default `top_k = 5`. -/
def predictDiseasesLegacy (clf : List ℚ → List ℚ) (cols : List String) (baseW : String → ℚ)
    (labels : List String) (symptoms : List String) : Result :=
  predictDiseasesEnhanced clf cols baseW labels (legacyConvert symptoms) 5

end FA

namespace Col

/-- `safety_rules['single_symptom_diseases']` of `_apply_columbia_medical_safety`
(membership is tested by exact equality of the full disease name). -/
def singleSymptomDiseases : List String :=
  ["Myocardial Infarction", "Accident Cerebrovascular", "Pneumonia"]

/-- `safety_rules['high_severity_diseases']` of `_apply_columbia_medical_safety`. -/
def highSeverityDiseases : List String :=
  ["Myocardial Infarction", "Accident Cerebrovascular", "Failure Heart Congestive"]

/-- Severity multiplier table of `_calculate_symptom_weight` (`.get(severity.lower(), 1.0)`). -/
def sevMult (severity : String) : ℚ :=
  if severity.toLower = "mild" then 7/10
  else if severity.toLower = "moderate" then 1
  else if severity.toLower = "severe" then 7/5
  else if severity.toLower = "very severe" then 9/5
  else 1

/-- Duration multiplier table of `_calculate_symptom_weight` (`.get(duration.lower(), 1.0)`). -/
def durMult (duration : String) : ℚ :=
  if duration.toLower = "less than 1 week" then 4/5
  else if duration.toLower = "1 week" then 1
  else if duration.toLower = "2+ weeks" then 13/10
  else if duration.toLower = "more than 1 month" then 8/5
  else 1

/-- `_calculate_symptom_weight`: `min(max(base*sev*dur, 1.0), 8.0)`. `baseW` stands for the
composite `columbia_symptom_mapping[symptom_name].get('weight', 4.0)` lookup (default 4.0). -/
def calculateSymptomWeight (baseW : ℚ) (severity duration : String) : ℚ :=
  min (max (baseW * sevMult severity * durMult duration) 1) 8

/-- `normalize_symptom_name` of the Columbia checker: title-case with underscores replaced
by spaces, tried with a trailing space (the Columbia dataset has trailing spaces), then
exactly, then case-insensitively against stripped vocabulary entries. -/
def normalizeSymptomName (cols : List String) (symptom : String) : Option String :=
  let n := (pyTitle symptom.trim).replace "_" " "
  if (n ++ " ") ∈ cols then some (n ++ " ")
  else if n ∈ cols then some n
  else cols.find? (fun f => f.trim.toLower == n.toLower)

/-- `_create_feature_vector_enhanced` of the Columbia checker: the slot of a matched
symptom receives the severity/duration weight; the base weight is looked up under the raw
(unnormalized) symptom name. -/
def createFeatureVectorEnhanced (cols : List String) (baseW : String → ℚ)
    (objs : List SymptomObj) : List ℚ :=
  objs.foldl (fun vec obj =>
    match normalizeSymptomName cols obj.name with
    | some nm =>
      if nm ∈ cols then
        vec.set (cols.indexOf nm) (calculateSymptomWeight (baseW obj.name) obj.severity obj.duration)
      else vec
    | none => vec)
    (List.replicate cols.length 0)

/-- One iteration of the loop of `_apply_columbia_medical_safety`. -/
def adjustOne (symptomCount : ℕ) (p : String × ℚ) : String × ℚ :=
  -- Rule 1: single symptom safety
  let c1 := if symptomCount = 1 then
              (if p.1 ∈ singleSymptomDiseases then p.2 * (1/10) else p.2 * (3/10))
            else p.2
  -- Rule 2: high severity diseases need strong evidence
  let c2 := if p.1 ∈ highSeverityDiseases ∧ symptomCount < 3 then c1 * (2/5) else c1
  -- Rule 3: cap confidence for safety
  (p.1, min c2 (17/20))

/-- `_apply_columbia_medical_safety`. -/
def applyColumbiaMedicalSafety (preds : List (String × ℚ)) (symptomCount : ℕ) :
    List (String × ℚ) :=
  preds.map (adjustOne symptomCount)

/-- `_get_disease_recommendation` of the Columbia checker. -/
def getDiseaseRecommendation (confidence : ℚ) : String :=
  if confidence < 3/10 then
    "Low confidence - Monitor symptoms and consult healthcare provider if they persist"
  else if confidence < 6/10 then
    "Moderate confidence - Consider consulting a healthcare provider"
  else if confidence < 4/5 then
    "High confidence - Recommend consulting a healthcare provider for proper evaluation"
  else "Very high confidence - Strongly recommend immediate consultation with a healthcare provider"

/-- One formatted prediction of the Columbia `predict_diseases_enhanced`. -/
structure Pred where
  disease : String
  confidence : ℚ
  confidencePct : String
  recommendation : String
deriving DecidableEq

/-- The response of the Columbia `predict_diseases_enhanced` (model metadata not
represented; on the error path the remaining fields are zero/empty). -/
structure Result where
  predictions : List Pred
  modelInfo : String
  totalSymptoms : ℕ
  processedSymptoms : ℕ
  error : Option String
deriving DecidableEq

/-- `predict_diseases_enhanced` of the Columbia checker. -/
def predictDiseasesEnhanced (clf : List ℚ → List ℚ) (cols : List String) (baseW : String → ℚ)
    (labels : List String) (objs : List SymptomObj) (topK : ℕ) : Result :=
  if objs = [] then
    { predictions := [], modelInfo := "columbia_enhanced", totalSymptoms := 0,
      processedSymptoms := 0, error := some "No symptoms provided" }
  else
    let vec := createFeatureVectorEnhanced cols baseW objs
    let probs := clf vec
    let sorted := sortDescBy Prod.snd (labels.zip probs)
    let adjusted := applyColumbiaMedicalSafety sorted objs.length
    let top := (sortDescBy Prod.snd adjusted).take topK
    { predictions := top.map (fun p =>
        { disease := p.1, confidence := p.2,
          confidencePct := pyFormat1 (p.2 * 100) ++ "%",
          recommendation := getDiseaseRecommendation p.2 }),
      modelInfo := "columbia_enhanced",
      totalSymptoms := objs.length,
      processedSymptoms := (objs.filter (fun o =>
        match normalizeSymptomName cols o.name with
        | some nm => nm ∈ cols
        | none => false)).length,
      error := none }

/-- The conversion loop of the Columbia `predict_diseases_legacy`. -/
def legacyConvert (symptoms : List String) : List SymptomObj :=
  symptoms.foldl (fun acc s => acc ++ [⟨s, "moderate", "1 week"⟩]) []

/-- `predict_diseases_legacy` of the Columbia checker (default `top_k = 5`). -/
def predictDiseasesLegacy (clf : List ℚ → List ℚ) (cols : List String) (baseW : String → ℚ)
    (labels : List String) (symptoms : List String) : Result :=
  predictDiseasesEnhanced clf cols baseW labels (legacyConvert symptoms) 5

end Col

namespace MLC

/-- Lower-case, strip, and replace spaces/hyphens with underscores, as done both to input
symptoms and to vocabulary columns in the legacy checker. -/
def pyNormStr (s : String) : String :=
  ((s.toLower.trim).replace " " "_").replace "-" "_"

/-- The live `symptom_mappings` table of `_normalize_symptom` (the source has a second,
unreachable table after its first `return`). -/
def symptomMappings : List (String × String) :=
  [("fever", "high_fever"), ("cough", "cough"), ("headache", "headache"),
   ("fatigue", "fatigue"), ("nausea", "nausea"), ("vomiting", "vomiting"),
   ("diarrhea", "diarrhoea"), ("diarrhoea", "diarrhoea"),
   ("stomach_ache", "stomach_pain"), ("stomach_pain", "stomach_pain"),
   ("abdominal_pain", "abdominal_pain"), ("chest_pain", "chest_pain"),
   ("back_pain", "back_pain"), ("joint_pain", "joint_pain"),
   ("muscle_pain", "muscle_pain"), ("muscle_weakness", "muscle_weakness"),
   ("shortness_of_breath", "breathlessness"), ("difficulty_breathing", "breathlessness"),
   ("breathlessness", "breathlessness"), ("skin_rash", "skin_rash"),
   ("rash", "skin_rash"), ("itching", "itching"), ("sweating", "sweating"),
   ("dizziness", "dizziness"), ("weakness", "weakness_in_limbs"),
   ("weight_loss", "weight_loss"), ("weight_gain", "weight_gain"),
   ("loss_of_appetite", "loss_of_appetite"), ("constipation", "constipation"),
   ("dehydration", "dehydration"), ("chills", "chills"), ("shivering", "shivering")]

/-- `_normalize_symptom`: normalize and apply the smart mapping with the normalized string
itself as default. -/
def normalizeSymptom (s : String) : String :=
  ((symptomMappings.lookup (pyNormStr s)).getD (pyNormStr s))

/-- `severity_weights.get(severity, 4.5)` of `_create_feature_vector_enhanced`
(exact-case lookup). -/
def sevWeight (severity : String) : ℚ :=
  if severity = "mild" then 2
  else if severity = "moderate" then 9/2
  else if severity = "severe" then 7
  else 9/2

/-- `duration_multipliers.get(duration, 1.0)` of `_create_feature_vector_enhanced`
(exact-case lookup). -/
def durMult (duration : String) : ℚ :=
  if duration = "1 day" then 7/10
  else if duration = "2-3 days" then 1
  else if duration = "1 week" then 13/10
  else if duration = "2+ weeks" then 9/5
  else 1

/-- The feature value written for a matched symptom: `(severity_score / 7.0) * duration_multiplier`. -/
def featureValue (severity duration : String) : ℚ :=
  (sevWeight severity / 7) * durMult duration

/-- The column a symptom matches in `_create_feature_vector_enhanced`: the first index `j`
with `col_normalized == normalized_symptom` (the loop breaks at the first match). -/
def matchIdx (cols : List String) (name : String) : Option ℕ :=
  cols.findIdx? (fun c => pyNormStr c == normalizeSymptom name)

/-- `_create_feature_vector_enhanced` of the legacy checker (the matched/unmatched
diagnostic lists only feed debug printing and are not represented). -/
def createFeatureVectorEnhanced (cols : List String) (objs : List SymptomObj) : List ℚ :=
  objs.foldl (fun vec obj =>
    match matchIdx cols obj.name with
    | some j => vec.set j (featureValue obj.severity obj.duration)
    | none => vec)
    (List.replicate cols.length 0)

/-- A prediction dictionary of the legacy checker. Diagnostic fields that no decision
logic reads back (`matching_symptoms`, `description`, `safety_notes`,
`original_confidence`) are not represented. -/
structure Pred where
  disease : String
  confidence : ℚ
  severity : String
  recommendations : List String
deriving DecidableEq

/-- `serious_diseases` of `_apply_medical_safety_constraints`. -/
def seriousDiseases : List String :=
  ["aids", "heart attack", "stroke", "cancer", "tuberculosis",
   "paralysis", "brain hemorrhage", "hepatitis"]

/-- `common_symptoms` of `_apply_medical_safety_constraints`. -/
def commonSymptoms : List String := ["fever", "headache", "fatigue", "cough", "nausea"]

/-- `rare_diseases` of `_apply_medical_safety_constraints`. -/
def rareDiseases : List String := ["aids", "malaria", "tuberculosis", "hepatitis c"]

/-- The accumulated `confidence_multiplier` of one loop iteration of
`_apply_medical_safety_constraints`. `names` is the list of lower-cased symptom names.
The `symptom_count < 2` branch of Rule 1 is kept as in the source although it is
unreachable (it sits behind `elif` after `symptom_count < 3`). -/
def adjustMult (symptomCount : ℕ) (names : List String) (diseaseLower : String) : ℚ :=
  -- Rule 1: high-stakes diseases need multiple symptoms
  let m1 := if seriousDiseases.any (fun s => pyIn s diseaseLower) then
              (if symptomCount < 3 then (3/20 : ℚ)
               else if symptomCount < 2 then 1/20 else 1)
            else 1
  -- Rule 2: common symptoms should not directly suggest rare diseases
  let m2 := if ((names.filter (fun s => commonSymptoms.any (fun c => pyIn c s))).length : ℚ)
                 ≥ (symptomCount : ℚ) * (7/10)
               ∧ rareDiseases.any (fun r => pyIn r diseaseLower) then (3/10 : ℚ) else 1
  -- Rule 3: single symptom constraints
  let m3 := if symptomCount = 1 then
              (2/5 : ℚ) *
              (if pyIn "fever" (names.headD "")
                  ∧ seriousDiseases.any (fun s => pyIn s diseaseLower) then 1/10 else 1)
            else 1
  m1 * m2 * m3

/-- The adjusted, filtered and re-sorted predictions of
`_apply_medical_safety_constraints`, before the synthetic-entry check: predictions whose
adjusted confidence falls below `0.03` are dropped. -/
def safetyKept (preds : List Pred) (objs : List SymptomObj) : List Pred :=
  let names := objs.map (fun o => o.name.toLower)
  sortDescBy Pred.confidence (preds.filterMap (fun p =>
    let adj := p.confidence * adjustMult objs.length names p.disease.toLower
    if adj < 3/100 then none else some { p with confidence := adj }))

/-- The synthetic `General Medical Concern` entry inserted when no reasonable prediction
remains. -/
def syntheticEntry : Pred :=
  { disease := "General Medical Concern", confidence := 0, severity := "unknown",
    recommendations :=
      ["Your symptoms require professional medical evaluation",
       "Please provide more specific symptoms for better assessment",
       "Consider consulting a healthcare provider for accurate diagnosis"] }

/-- `max(p['confidence'] for p in l)` over a nonempty list given as head and tail. -/
def listMax (x : ℚ) (xs : List ℚ) : ℚ := xs.foldl max x

/-- `_apply_medical_safety_constraints` of the legacy checker. -/
def applyMedicalSafetyConstraints (preds : List Pred) (objs : List SymptomObj) : List Pred :=
  let kept := safetyKept preds objs
  match kept with
  | [] => [syntheticEntry]
  | p :: rest =>
    if listMax p.confidence (rest.map Pred.confidence) < 3/20 then syntheticEntry :: kept
    else kept

/-- `_get_disease_severity` (the second definition in the source file, which overrides the
earlier one of the same name at class-body execution). -/
def getDiseaseSeverity (disease : String) : String :=
  let dl := disease.toLower
  if ["aids", "cancer", "heart_attack", "stroke", "meningitis", "tuberculosis"].any
       (fun s => pyIn s dl) then "serious"
  else if ["diabetes", "hypertension", "hepatitis", "pneumonia", "malaria"].any
       (fun s => pyIn s dl) then "moderate"
  else "mild"

/-- `_get_disease_recommendations` (only the code before the unreachable block after the
final `else` return is live). -/
def getDiseaseRecommendations (severity : String) : List String :=
  if severity = "serious" then
    ["🚨 URGENT: Seek immediate medical attention",
     "Go to emergency room or call emergency services",
     "Do not delay professional medical evaluation"]
  else if severity = "moderate" then
    ["⚕️ Schedule an appointment with a healthcare provider soon",
     "Monitor symptoms closely and seek care if they worsen",
     "Consider seeing a specialist if symptoms persist"]
  else
    ["💊 Consider rest, hydration, and over-the-counter remedies",
     "Monitor symptoms for 2-3 days",
     "See a healthcare provider if symptoms persist or worsen"]

/-- `np.argsort(probs)[-k:][::-1]`: the indices of the `k` largest probabilities in
descending order (`np.argsort` leaves tie order unspecified; ties are modelled in
ascending index order, as a stable ascending sort produces). -/
def argsortTopRev (probs : List ℚ) (k : ℕ) : List ℕ :=
  let asc := (List.range probs.length).mergeSort
    (fun i j => decide (probs.getD i 0 ≤ probs.getD j 0))
  (asc.drop (asc.length - k)).reverse

/-- The `Insufficient Information` entry returned when no symptom matched the vocabulary
(its `recommendations` field is `["Please enter recognizable medical symptoms"]` in the
source). -/
def insufficientEntry : Pred :=
  { disease := "Insufficient Information", confidence := 0, severity := "unknown",
    recommendations := ["Please enter recognizable medical symptoms"] }

/-- `predict_diseases_enhanced` of the legacy checker. The classifier is only consulted
when the feature vector is not identically zero. -/
def predictDiseasesEnhanced (clf : List ℚ → List ℚ) (cols : List String)
    (labels : List String) (objs : List SymptomObj) (topN : ℕ) : List Pred :=
  if objs = [] then []
  else
    let vec := createFeatureVectorEnhanced cols objs
    if vec.sum = 0 then [insufficientEntry]
    else
      let probs := clf vec
      let raw := (argsortTopRev probs (topN * 2)).filterMap (fun i =>
        let c := probs.getD i 0
        if c > 1/100 then
          some { disease := labels.getD i "", confidence := c,
                 severity := getDiseaseSeverity (labels.getD i ""), recommendations := [] }
        else none)
      let safe := applyMedicalSafetyConstraints raw objs
      (safe.take topN).map (fun p =>
        { p with recommendations := getDiseaseRecommendations p.severity })

/-- The conversion loop of `analyze` (note the default duration `2-3 days`). -/
def legacyConvert (symptoms : List String) : List SymptomObj :=
  symptoms.foldl (fun acc s => acc ++ [⟨s, "moderate", "2-3 days"⟩]) []

/-- The response of `analyze`. -/
structure AnalyzeResult where
  predictions : List Pred
  method : String
  totalSymptoms : ℕ
  matchedSymptoms : ℕ
deriving DecidableEq

/-- `analyze` of the legacy checker: convert plain strings and wrap the enhanced
prediction. -/
def analyze (clf : List ℚ → List ℚ) (cols : List String) (labels : List String)
    (symptoms : List String) (topN : ℕ) : AnalyzeResult :=
  { predictions := predictDiseasesEnhanced clf cols labels (legacyConvert symptoms) topN,
    method := "ml_enhanced",
    totalSymptoms := symptoms.length,
    matchedSymptoms := (symptoms.filter (fun s => normalizeSymptom s ∈ cols)).length }

end MLC

namespace Ov

/-- `_normalize_symptom` of the weighted-overlap checker. -/
def normalize (s : String) : String :=
  ((s.trim.toLower).replace " " "_").replace "-" "_"

/-- `_calculate_match_probability`: weighted-Jaccard score of user symptoms against a
curated disease symptom list. `w` stands for the composite
`symptom_weights.get(s, 2.0)` lookup (severity weights loaded from CSV, default 2.0). -/
def calculateMatchProbability (w : String → ℚ) (userSymptoms diseaseSymptoms : List String) : ℚ :=
  let userSet := (userSymptoms.map normalize).dedup
  let diseaseSet := (diseaseSymptoms.map normalize).dedup
  let inter := userSet.filter (fun s => s ∈ diseaseSet)
  if inter = [] then 0
  else
    let matchScore := (inter.map w).sum
    let diseaseTotal := (diseaseSet.map w).sum
    let userTotal := (userSet.map w).sum
    if userTotal + diseaseTotal = 0 then 0
    else
      let probability := (2 * matchScore) / (userTotal + diseaseTotal)
      let coverage := if diseaseSet = [] then 0 else ((inter.length : ℚ) / (diseaseSet.length : ℚ))
      min (probability * (7/10) + coverage * (3/10)) 1

/-- An entry of the curated `symptom_disease_mapping.json` dictionary. -/
structure Disease where
  name : String
  symptoms : List String
  severity : String
  recommendations : List String
deriving DecidableEq

/-- A prediction of the weighted-overlap checker. -/
structure Pred where
  disease : String
  confidence : ℚ
  severity : String
  recommendations : List String
  matchingSymptoms : ℕ
deriving DecidableEq

/-- `predict_diseases` of the weighted-overlap checker: diseases are kept only when their
score is strictly above `0.05`; the stored confidence is the score rounded to 3 digits. -/
def predictDiseases (w : String → ℚ) (diseaseData : List Disease)
    (symptoms : List String) (topN : ℕ) : List Pred :=
  if symptoms = [] then []
  else
    let preds := diseaseData.filterMap (fun d =>
      let p := calculateMatchProbability w symptoms d.symptoms
      if p > 1/20 then
        some { disease := d.name, confidence := roundTo3 p, severity := d.severity,
               recommendations := d.recommendations,
               matchingSymptoms := ((symptoms.map normalize).dedup.filter
                 (fun s => s ∈ (d.symptoms.map normalize).dedup)).length }
      else none)
    (sortDescBy Pred.confidence preds).take topN

end Ov

/-! ### General lemmas about the embedded operations -/

/-- Membership is preserved by the stable descending sort. -/
lemma mem_sortDescBy {α : Type} (f : α → ℚ) (l : List α) (a : α) :
    a ∈ sortDescBy f l ↔ a ∈ l :=
  List.mem_mergeSort

/-- The stable descending sort is sorted: every later element has a key at most the key of
every earlier one. -/
lemma pairwise_sortDescBy {α : Type} (f : α → ℚ) (l : List α) :
    List.Pairwise (fun a b => f b ≤ f a) (sortDescBy f l) := by
  have h := @List.sorted_mergeSort α (fun a b : α => decide (f b ≤ f a))
    (fun a b c hab hbc => decide_eq_true (le_trans (of_decide_eq_true hbc) (of_decide_eq_true hab)))
    (fun a b => by
      rcases le_total (f b) (f a) with h | h
      · simp [h]
      · simp [h]) l
  exact h.imp (fun hab => of_decide_eq_true hab)

/-- A left fold of `max` over values all bounded by the start value returns the start
value. -/
lemma foldl_max_of_le (x : ℚ) (xs : List ℚ) (h : ∀ y ∈ xs, y ≤ x) : xs.foldl max x = x := by
  induction xs with
  | nil => rfl
  | cons y ys ih =>
    have hx : max x y = x := max_eq_left (h y (List.mem_cons_self y ys))
    simpa [hx] using ih (fun z hz => h z (List.mem_cons_of_mem y hz))

/-- The append-accumulating loops building symptom-object lists are maps. -/
lemma foldl_append_eq_map {α β : Type} (f : α → β) (l : List α) (acc : List β) :
    l.foldl (fun a s => a ++ [f s]) acc = acc ++ l.map f := by
  induction l generalizing acc with
  | nil => simp
  | cons s l ih => simp [ih]

/-- A fold whose step leaves the accumulator unchanged on every list element is the
identity. -/
lemma foldl_fixed {α β : Type} (step : β → α → β) (l : List α) (acc : β)
    (h : ∀ b, ∀ a ∈ l, step b a = b) : l.foldl step acc = acc := by
  induction l generalizing acc with
  | nil => rfl
  | cons a l ih =>
    rw [List.foldl_cons, h acc a (List.mem_cons_self a l)]
    exact ih acc (fun b a' ha' => h b a' (List.mem_cons_of_mem a ha'))

/-! ### Claim C6 -/

/-- Claim C6, counterexample: the legacy checker `analyze` converts a plain string symptom
with default duration `"2-3 days"`, not `"1 week"` as the claim states for every tier. -/
theorem C6_counterexample :
    MLC.legacyConvert ["cough"] = [⟨"cough", "moderate", "2-3 days"⟩] ∧
    (⟨"cough", "moderate", "2-3 days"⟩ : SymptomObj) ≠ ⟨"cough", "moderate", "1 week"⟩ := by
  constructor
  · rfl
  · decide

/-- Claim C6 (corrected): the final-augmented and Columbia legacy operations convert each
plain string `s` to `{name: s, severity: "moderate", duration: "1 week"}` and return
exactly the enhanced prediction on the converted list (at the default `top_k = 5`); the
legacy checker `analyze` instead converts with duration `"2-3 days"` and wraps the
enhanced predictions in an analysis record. -/
theorem C6_theorem (clf : List ℚ → List ℚ) (cols : List String) (baseW : String → ℚ)
    (labels : List String) (symptoms : List String) (topN : ℕ) :
    FA.predictDiseasesLegacy clf cols baseW labels symptoms
      = FA.predictDiseasesEnhanced clf cols baseW labels
          (symptoms.map (fun s => ⟨s, "moderate", "1 week"⟩)) 5
    ∧ Col.predictDiseasesLegacy clf cols baseW labels symptoms
      = Col.predictDiseasesEnhanced clf cols baseW labels
          (symptoms.map (fun s => ⟨s, "moderate", "1 week"⟩)) 5
    ∧ (MLC.analyze clf cols labels symptoms topN).predictions
      = MLC.predictDiseasesEnhanced clf cols labels
          (symptoms.map (fun s => ⟨s, "moderate", "2-3 days"⟩)) topN
    ∧ (MLC.analyze clf cols labels symptoms topN).method = "ml_enhanced"
    ∧ (MLC.analyze clf cols labels symptoms topN).totalSymptoms = symptoms.length := by
  refine ⟨?_, ?_, ?_, rfl, rfl⟩
  · unfold FA.predictDiseasesLegacy FA.legacyConvert
    rw [foldl_append_eq_map (fun s => (⟨s, "moderate", "1 week"⟩ : SymptomObj))]
    simp
  · unfold Col.predictDiseasesLegacy Col.legacyConvert
    rw [foldl_append_eq_map (fun s => (⟨s, "moderate", "1 week"⟩ : SymptomObj))]
    simp
  · unfold MLC.analyze MLC.legacyConvert
    rw [foldl_append_eq_map (fun s => (⟨s, "moderate", "2-3 days"⟩ : SymptomObj))]
    simp

/-! ### Claim C7 -/

/-- Claim C7 (confirmed): on an empty symptom list the enhanced prediction operation
returns an error result with an empty prediction list, and the result does not depend on
the classifier backend at all (so `predict_proba` is never consulted). Both the primary
(final-augmented) and secondary (Columbia) services behave this way. -/
theorem C7_theorem (clf clf2 : List ℚ → List ℚ) (cols : List String) (baseW : String → ℚ)
    (labels : List String) (topK : ℕ) :
    (FA.predictDiseasesEnhanced clf cols baseW labels [] topK).predictions = []
    ∧ (FA.predictDiseasesEnhanced clf cols baseW labels [] topK).error
        = some "No symptoms provided"
    ∧ FA.predictDiseasesEnhanced clf cols baseW labels [] topK
        = FA.predictDiseasesEnhanced clf2 cols baseW labels [] topK
    ∧ (Col.predictDiseasesEnhanced clf cols baseW labels [] topK).predictions = []
    ∧ (Col.predictDiseasesEnhanced clf cols baseW labels [] topK).error
        = some "No symptoms provided"
    ∧ Col.predictDiseasesEnhanced clf cols baseW labels [] topK
        = Col.predictDiseasesEnhanced clf2 cols baseW labels [] topK := by
  refine ⟨?_, ?_, ?_, ?_, ?_, ?_⟩ <;>
    simp [FA.predictDiseasesEnhanced, Col.predictDiseasesEnhanced]

/-! ### Claim C9 -/

/-- Claim C9 (confirmed): the safety engines of the primary (final-augmented) and
secondary (Columbia) tiers preserve both the length of the prediction list and the disease
label of every position; only confidences are modified. -/
theorem C9_theorem (preds : List (String × ℚ)) (cnt : ℕ) (ws : List ℚ)
    (preds2 : List (String × ℚ)) (cnt2 : ℕ) :
    ((FA.applyMedicalSafetyConstraints preds cnt ws).map Prod.fst = preds.map Prod.fst
      ∧ (FA.applyMedicalSafetyConstraints preds cnt ws).length = preds.length)
    ∧ ((Col.applyColumbiaMedicalSafety preds2 cnt2).map Prod.fst = preds2.map Prod.fst
      ∧ (Col.applyColumbiaMedicalSafety preds2 cnt2).length = preds2.length) := by
  refine ⟨⟨?_, ?_⟩, ⟨?_, ?_⟩⟩
  · simp only [FA.applyMedicalSafetyConstraints, List.map_map]
    exact List.map_congr_left (fun p _ => rfl)
  · simp [FA.applyMedicalSafetyConstraints]
  · simp only [Col.applyColumbiaMedicalSafety, List.map_map]
    exact List.map_congr_left (fun p _ => rfl)
  · simp [Col.applyColumbiaMedicalSafety]

/-! ### Claim C1 -/

/-- Claim C1, counterexample: with one symptom the final-augmented engine multiplies a
critical label by `0.15` (not `0.1`), so the stub-classifier instance yields
`Heart Attack = 0.075`, not the claimed `0.05`; and the Columbia engine multiplies a
non-critical label by `0.3` (not `0.4`). -/
theorem C1_counterexample :
    FA.applyMedicalSafetyConstraints [("Flu", 1/2), ("Heart Attack", 1/2)] 1 [1]
      = [("Flu", 1/5), ("Heart Attack", 3/40)]
    ∧ ((3:ℚ)/40 ≠ 1/20)
    ∧ Col.applyColumbiaMedicalSafety [("Flu", 1/2)] 1 = [("Flu", 3/20)]
    ∧ ((3:ℚ)/20 ≠ 1/5) := by
  with_unfolding_all decide

/-- Claim C1 (corrected): with exactly one symptom the final-augmented safety engine
multiplies every critical-keyword label by `0.15` and every other label by `0.4` (and
caps at `0.85`; no other rule fires when the mean enhancement weight lies in
`[0.8, 1.5]`), while the Columbia engine multiplies its critical-list labels by `0.1`
and all others by `0.3`, with a further `0.4` corroboration factor on its high-severity
list. For the stub classifier returning `Flu = 0.5`, `HeartAttack = 0.5` the
final-augmented tier returns `Flu = 0.20`, `HeartAttack = 0.075` in the final order
`[Flu, HeartAttack]` — the rank inversion of the claim, at different constants. -/
theorem C1_theorem (preds preds2 : List (String × ℚ)) (ws : List ℚ)
    (h1 : 4/5 ≤ FA.avgWeights ws) (h2 : FA.avgWeights ws ≤ 3/2) :
    FA.applyMedicalSafetyConstraints preds 1 ws
      = preds.map (fun p =>
          (p.1, min (p.2 * (if FA.isCritical p.1.toLower then 3/20 else 2/5)) (17/20)))
    ∧ Col.applyColumbiaMedicalSafety preds2 1
      = preds2.map (fun p =>
          (p.1, min (p.2 * (if p.1 ∈ Col.singleSymptomDiseases then (1:ℚ)/10 else 3/10)
            * (if p.1 ∈ Col.highSeverityDiseases then (2:ℚ)/5 else 1)) (17/20)))
    ∧ (FA.predictDiseasesEnhanced (fun _ => [1/2, 1/2]) ["fever"] (fun _ => 1)
        ["Flu", "Heart Attack"] [⟨"fever", "moderate", "1 week"⟩] 5).predictions.map
        (fun p => (p.disease, p.confidence)) = [("Flu", 1/5), ("Heart Attack", 3/40)] := by
  have hn1 : ¬ (FA.avgWeights ws > 3/2) := not_lt.2 h2
  have hn2 : ¬ (FA.avgWeights ws < 4/5) := not_lt.2 h1
  refine ⟨?_, ?_, by with_unfolding_all decide⟩
  · unfold FA.applyMedicalSafetyConstraints
    refine List.map_congr_left (fun p _ => ?_)
    simp only [FA.adjustOne, if_neg hn1, if_neg hn2]
    norm_num [mul_ite]
  · unfold Col.applyColumbiaMedicalSafety
    refine List.map_congr_left (fun p _ => ?_)
    by_cases hm : p.1 ∈ Col.highSeverityDiseases
    · simp only [Col.adjustOne, hm]
      norm_num [mul_ite, ite_mul]
    · simp only [Col.adjustOne, hm]
      norm_num [mul_ite, ite_mul]

/-- Claim C1, witness: the corrected sparse-evidence rule evaluated on the stub
prediction list of the claim. -/
theorem C1_witness :
    FA.applyMedicalSafetyConstraints [("Flu", 1/2), ("Heart Attack", 1/2)] 1 [1]
      = [("Flu", (1:ℚ)/2), ("Heart Attack", (1:ℚ)/2)].map (fun p =>
          (p.1, min (p.2 * (if FA.isCritical p.1.toLower then 3/20 else 2/5)) (17/20))) :=
  (C1_theorem [("Flu", 1/2), ("Heart Attack", 1/2)] [] [1]
    (by with_unfolding_all decide) (by with_unfolding_all decide)).1

/-! ### Claim C2 -/

/-- Bounds of one final-augmented safety adjustment: nonnegative in, the adjusted
confidence lies in `[0, 0.85]`. -/
lemma FA_adjustOne_bounds (avg : ℚ) (cnt : ℕ) (p : String × ℚ) (h : 0 ≤ p.2) :
    0 ≤ (FA.adjustOne avg cnt p).2 ∧ (FA.adjustOne avg cnt p).2 ≤ 17/20 := by
  simp only [FA.adjustOne]
  refine ⟨le_min ?_ (by norm_num), min_le_right _ _⟩
  split_ifs <;> linarith [h]

/-- Bounds of one Columbia safety adjustment: nonnegative in, the adjusted confidence
lies in `[0, 0.85]`. -/
lemma Col_adjustOne_bounds (cnt : ℕ) (p : String × ℚ) (h : 0 ≤ p.2) :
    0 ≤ (Col.adjustOne cnt p).2 ∧ (Col.adjustOne cnt p).2 ≤ 17/20 := by
  simp only [Col.adjustOne]
  refine ⟨le_min ?_ (by norm_num), min_le_right _ _⟩
  split_ifs <;> linarith [h]

/-- Claim C2, counterexample: the legacy checker safety engine has no `0.85` ceiling — a
raw prediction of confidence `0.9` with three non-common, non-serious symptoms passes
through unchanged, above `0.85`. -/
theorem C2_counterexample :
    MLC.applyMedicalSafetyConstraints
      [{ disease := "Flu", confidence := 9/10, severity := "mild", recommendations := [] }]
      [⟨"a", "moderate", "1 week"⟩, ⟨"b", "moderate", "1 week"⟩, ⟨"c", "moderate", "1 week"⟩]
      = [{ disease := "Flu", confidence := 9/10, severity := "mild", recommendations := [] }]
    ∧ (17/20 : ℚ) < 9/10 := by
  with_unfolding_all decide

/-- Claim C2 (corrected): the ceiling invariant `0 ≤ confidence ≤ 0.85` holds for every
prediction adjusted by the final-augmented or Columbia safety engines (given nonnegative
raw confidences), but the legacy checker engine applies no `0.85` ceiling. -/
theorem C2_theorem (preds : List (String × ℚ)) (cnt : ℕ) (ws : List ℚ)
    (preds2 : List (String × ℚ)) (cnt2 : ℕ)
    (h : ∀ p ∈ preds, 0 ≤ p.2) (h2 : ∀ p ∈ preds2, 0 ≤ p.2) :
    (∀ q ∈ FA.applyMedicalSafetyConstraints preds cnt ws, 0 ≤ q.2 ∧ q.2 ≤ 17/20)
    ∧ (∀ q ∈ Col.applyColumbiaMedicalSafety preds2 cnt2, 0 ≤ q.2 ∧ q.2 ≤ 17/20) := by
  constructor
  · intro q hq
    obtain ⟨p, hp, rfl⟩ := List.mem_map.1 hq
    exact FA_adjustOne_bounds _ _ p (h p hp)
  · intro q hq
    obtain ⟨p, hp, rfl⟩ := List.mem_map.1 hq
    exact Col_adjustOne_bounds _ p (h2 p hp)

/-- Claim C2, witness: the ceiling bounds evaluated on the single-symptom stub
prediction adjusted to `0.2`. -/
theorem C2_witness :
    0 ≤ (("Flu", (1:ℚ)/5)).2 ∧ (("Flu", (1:ℚ)/5)).2 ≤ 17/20 :=
  (C2_theorem [("Flu", 1/2)] 1 [1] [] 0
    (by with_unfolding_all decide) (by with_unfolding_all decide)).1
    ("Flu", 1/5) (by with_unfolding_all decide)

/-! ### Claim C3 -/

/-- Claim C3, counterexample: the final-augmented safety engine neither drops a
prediction whose adjusted confidence (`0.01`) is below `0.03`, nor inserts a synthetic
entry although the top adjusted confidence is below `0.15`. -/
theorem C3_counterexample :
    FA.applyMedicalSafetyConstraints [("Flu", 1/100)] 2 [1] = [("Flu", 1/100)]
    ∧ ((1:ℚ)/100 < 3/100) ∧ ((1:ℚ)/100 < 3/20) := by
  with_unfolding_all decide

/-- Claim C3 (corrected): the floor/drop rule and the synthetic fallback belong to the
legacy checker safety engine (not to every tier): there, every surviving adjusted
prediction has confidence at least `0.03`, and the synthetic `General Medical Concern`
entry — confidence `0`, with a note recommending professional evaluation — is prepended
exactly when the surviving list is empty or its top entry is below `0.15`. -/
theorem C3_theorem (preds : List MLC.Pred) (objs : List SymptomObj) :
    (∀ p ∈ MLC.safetyKept preds objs, 3/100 ≤ p.confidence)
    ∧ ((MLC.applyMedicalSafetyConstraints preds objs
          = MLC.syntheticEntry :: MLC.safetyKept preds objs)
        ↔ (∀ p, (MLC.safetyKept preds objs).head? = some p → p.confidence < 3/20))
    ∧ (MLC.applyMedicalSafetyConstraints preds objs
          = MLC.syntheticEntry :: MLC.safetyKept preds objs
        ∨ MLC.applyMedicalSafetyConstraints preds objs = MLC.safetyKept preds objs)
    ∧ MLC.syntheticEntry.confidence = 0
    ∧ "Your symptoms require professional medical evaluation"
        ∈ MLC.syntheticEntry.recommendations := by
  have hkept : ∀ p ∈ MLC.safetyKept preds objs, 3/100 ≤ p.confidence := by
    intro p hp
    simp only [MLC.safetyKept] at hp
    rw [mem_sortDescBy] at hp
    obtain ⟨q, _, hf⟩ := List.mem_filterMap.1 hp
    by_cases hlt : q.confidence * MLC.adjustMult objs.length
        (objs.map (fun o => o.name.toLower)) q.disease.toLower < 3/100
    · rw [if_pos hlt] at hf
      cases hf
    · rw [if_neg hlt] at hf
      obtain rfl := Option.some.inj hf
      exact not_lt.1 hlt
  have hsorted := pairwise_sortDescBy MLC.Pred.confidence
    ((preds.filterMap (fun p =>
      let adj := p.confidence * MLC.adjustMult objs.length
        (objs.map (fun o => o.name.toLower)) p.disease.toLower
      if adj < 3/100 then none else some { p with confidence := adj })))
  refine ⟨hkept, ?_, ?_, rfl, by decide⟩
  · rcases hk : MLC.safetyKept preds objs with _ | ⟨p, rest⟩
    · constructor
      · intro _ q hq
        simp at hq
      · intro _
        unfold MLC.applyMedicalSafetyConstraints
        rw [hk]
    · have hpair : List.Pairwise (fun a b => MLC.Pred.confidence b ≤ MLC.Pred.confidence a)
          (p :: rest) := by
        rw [← hk]
        simpa only [MLC.safetyKept] using hsorted
      have hmax : MLC.listMax p.confidence (rest.map MLC.Pred.confidence) = p.confidence := by
        apply foldl_max_of_le
        intro y hy
        obtain ⟨b, hb, rfl⟩ := List.mem_map.1 hy
        exact (List.pairwise_cons.1 hpair).1 b hb
      by_cases hlt : p.confidence < 3/20
      · constructor
        · intro _ q hq
          simp only [List.head?_cons, Option.some.injEq] at hq
          rwa [← hq]
        · intro _
          unfold MLC.applyMedicalSafetyConstraints
          rw [hk]
          dsimp only
          rw [if_pos (by rw [hmax]; exact hlt)]
      · constructor
        · intro hcontra
          exfalso
          unfold MLC.applyMedicalSafetyConstraints at hcontra
          rw [hk] at hcontra
          dsimp only at hcontra
          rw [if_neg (by rw [hmax]; exact hlt)] at hcontra
          have := congrArg List.length hcontra
          simp at this
        · intro hall
          exact absurd (hall p rfl) hlt
  · rcases hk : MLC.safetyKept preds objs with _ | ⟨p, rest⟩
    · left
      unfold MLC.applyMedicalSafetyConstraints
      rw [hk]
    · by_cases hlt : MLC.listMax p.confidence (rest.map MLC.Pred.confidence) < 3/20
      · left
        unfold MLC.applyMedicalSafetyConstraints
        rw [hk]
        dsimp only
        rw [if_pos hlt]
      · right
        unfold MLC.applyMedicalSafetyConstraints
        rw [hk]
        dsimp only
        rw [if_neg hlt]

/-! ### Claim C4 -/

/-- A list of positive values with a nonempty underlying list has positive sum. -/
lemma sum_map_pos (w : String → ℚ) (l : List String) (hw : ∀ s, 0 < w s) (hl : l ≠ []) :
    0 < (l.map w).sum := by
  rcases l with _ | ⟨a, l⟩
  · exact absurd rfl hl
  · simp only [List.map_cons, List.sum_cons]
    have h1 : 0 ≤ (l.map w).sum := by
      apply List.sum_nonneg
      intro x hx
      obtain ⟨s, _, rfl⟩ := List.mem_map.1 hx
      exact le_of_lt (hw s)
    linarith [hw a]

/-- The weighted intersection sum is at most the weighted user-set sum: the intersection
is a sublist of the (deduplicated) user set. -/
lemma inter_sum_le_left (w : String → ℚ) (U : List String) (p : String → Bool)
    (hw : ∀ s, 0 < w s) : ((U.filter p).map w).sum ≤ (U.map w).sum := by
  apply List.Sublist.sum_le_sum ((List.filter_sublist U).map w)
  intro a ha
  obtain ⟨s, _, rfl⟩ := List.mem_map.1 ha
  exact le_of_lt (hw s)

/-- The weighted intersection sum is at most the weighted disease-set sum: the
intersection is a duplicate-free list of members of the (duplicate-free) disease set. -/
lemma inter_sum_le_right (w : String → ℚ) (I D : List String) (hw : ∀ s, 0 < w s)
    (hInd : I.Nodup) (hDnd : D.Nodup) (hsub : ∀ x ∈ I, x ∈ D) :
    (I.map w).sum ≤ (D.map w).sum := by
  classical
  rw [← List.sum_toFinset w hInd, ← List.sum_toFinset w hDnd]
  apply Finset.sum_le_sum_of_subset_of_nonneg
  · intro x hx
    rw [List.mem_toFinset] at hx ⊢
    exact hsub x hx
  · intro i _ _
    exact le_of_lt (hw i)

/-- Claim C4 (confirmed): the weighted-overlap score is exactly
`0.7 * (2*match)/(userTotal + diseaseTotal) + 0.3 * (|intersection|/|diseaseSet|)` for
positive symptom weights whenever the normalized intersection is nonempty (the `min · 1`
cap of the source can never bind), and every disease kept in the returned prediction list
scores strictly above `0.05`, with the stored confidence being the score rounded to three
digits. -/
theorem C4_theorem (w : String → ℚ) (userSymptoms diseaseSymptoms : List String)
    (diseaseData : List Ov.Disease) (symptoms : List String) (topN : ℕ)
    (hw : ∀ s, 0 < w s)
    (hne : (userSymptoms.map Ov.normalize).dedup.filter
        (fun s => s ∈ (diseaseSymptoms.map Ov.normalize).dedup) ≠ []) :
    Ov.calculateMatchProbability w userSymptoms diseaseSymptoms
      = 7/10 * ((2 * (((userSymptoms.map Ov.normalize).dedup.filter
              (fun s => s ∈ (diseaseSymptoms.map Ov.normalize).dedup)).map w).sum)
            / ((((userSymptoms.map Ov.normalize).dedup).map w).sum
              + (((diseaseSymptoms.map Ov.normalize).dedup).map w).sum))
        + 3/10 * ((((userSymptoms.map Ov.normalize).dedup.filter
              (fun s => s ∈ (diseaseSymptoms.map Ov.normalize).dedup)).length : ℚ)
            / (((diseaseSymptoms.map Ov.normalize).dedup).length : ℚ))
    ∧ ∀ e ∈ Ov.predictDiseases w diseaseData symptoms topN,
        ∃ d ∈ diseaseData, e.disease = d.name
          ∧ 1/20 < Ov.calculateMatchProbability w symptoms d.symptoms
          ∧ e.confidence = roundTo3 (Ov.calculateMatchProbability w symptoms d.symptoms) := by
  classical
  constructor
  · simp only [Ov.calculateMatchProbability]
    set U := (userSymptoms.map Ov.normalize).dedup with hU
    set D := (diseaseSymptoms.map Ov.normalize).dedup with hD
    set I := U.filter (fun s => s ∈ D) with hI
    have hUnd : U.Nodup := List.nodup_dedup _
    have hDnd : D.Nodup := List.nodup_dedup _
    have hInd : I.Nodup := hUnd.filter _
    have hIsub : ∀ x ∈ I, x ∈ D := by
      intro x hx
      have := (List.mem_filter.1 hx).2
      exact of_decide_eq_true this
    have hUne : U ≠ [] := by
      intro h0
      apply hne
      rw [hI, h0]
      rfl
    have hDne : D ≠ [] := by
      intro h0
      rcases List.exists_mem_of_ne_nil I hne with ⟨x, hx⟩
      rw [h0] at hIsub
      exact absurd (hIsub x hx) (List.not_mem_nil x)
    have hUpos : 0 < (U.map w).sum := sum_map_pos w U hw hUne
    have hDpos : 0 < (D.map w).sum := sum_map_pos w D hw hDne
    have hdenpos : 0 < (U.map w).sum + (D.map w).sum := by linarith
    have hm1 : (I.map w).sum ≤ (U.map w).sum := inter_sum_le_left w U _ hw
    have hm2 : (I.map w).sum ≤ (D.map w).sum := inter_sum_le_right w I D hw hInd hDnd hIsub
    have hIpos : 0 < (I.map w).sum := sum_map_pos w I hw hne
    have hjacc : 2 * (I.map w).sum / ((U.map w).sum + (D.map w).sum) ≤ 1 := by
      rw [div_le_one hdenpos]
      linarith
    have hlen : I.length ≤ D.length := by
      have hcard := Finset.card_le_card (by
        intro x hx
        rw [List.mem_toFinset] at hx ⊢
        exact hIsub x hx : I.toFinset ⊆ D.toFinset)
      rwa [List.toFinset_card_of_nodup hInd, List.toFinset_card_of_nodup hDnd] at hcard
    have hDlenpos : (0:ℚ) < D.length := by
      have : D.length ≠ 0 := fun h0 => hDne (List.length_eq_zero.1 h0)
      exact_mod_cast Nat.pos_of_ne_zero this
    have hcov : ((I.length : ℚ) / (D.length : ℚ)) ≤ 1 := by
      rw [div_le_one hDlenpos]
      exact_mod_cast hlen
    have hcovnn : 0 ≤ ((I.length : ℚ) / (D.length : ℚ)) := by positivity
    have hjaccnn : 0 ≤ 2 * (I.map w).sum / ((U.map w).sum + (D.map w).sum) := by positivity
    rw [if_neg hne, if_neg (ne_of_gt hdenpos), if_neg hDne]
    rw [min_eq_left (by linarith)]
    ring
  · intro e he
    simp only [Ov.predictDiseases] at he
    by_cases hs : symptoms = []
    · rw [if_pos hs] at he
      cases he
    · rw [if_neg hs] at he
      have he' := (mem_sortDescBy _ _ _).1 (List.mem_of_mem_take he)
      obtain ⟨d, hd, hf⟩ := List.mem_filterMap.1 he'
      by_cases hp : Ov.calculateMatchProbability w symptoms d.symptoms > 1/20
      · rw [if_pos hp] at hf
        obtain rfl := Option.some.inj hf
        exact ⟨d, hd, rfl, hp, rfl⟩
      · rw [if_neg hp] at hf
        cases hf

/-- Claim C4, witness: the weighted-overlap formula evaluated with the flat default
weight `2.0`, user symptoms `[cough, fever]` and disease symptoms `[cough]`. -/
theorem C4_witness :
    Ov.calculateMatchProbability (fun _ => (2:ℚ)) ["cough", "fever"] ["cough"]
      = 7/10 * ((2 * (((["cough", "fever"].map Ov.normalize).dedup.filter
              (fun s => s ∈ ((["cough"].map Ov.normalize)).dedup)).map (fun _ => (2:ℚ))).sum)
            / ((((["cough", "fever"].map Ov.normalize).dedup).map (fun _ => (2:ℚ))).sum
              + (((["cough"].map Ov.normalize).dedup).map (fun _ => (2:ℚ))).sum))
        + 3/10 * ((((["cough", "fever"].map Ov.normalize).dedup.filter
              (fun s => s ∈ ((["cough"].map Ov.normalize)).dedup)).length : ℚ)
            / (((["cough"].map Ov.normalize).dedup).length : ℚ)) :=
  (C4_theorem (fun _ => (2:ℚ)) ["cough", "fever"] ["cough"] [] [] 0
    (fun _ => by norm_num) (by with_unfolding_all decide)).1

/-! ### Claim C5 -/

/-- Every entry of the legacy feature-vector fold is either the corresponding entry of
the initial vector or the feature value of some symptom object that matched that
column. -/
lemma MLC_vec_entry (cols : List String) (objs : List SymptomObj) (init : List ℚ) (j : ℕ) :
    (objs.foldl (fun vec obj =>
        match MLC.matchIdx cols obj.name with
        | some i => vec.set i (MLC.featureValue obj.severity obj.duration)
        | none => vec) init).getD j 0 = init.getD j 0
    ∨ ∃ o ∈ objs, MLC.matchIdx cols o.name = some j
        ∧ (objs.foldl (fun vec obj =>
            match MLC.matchIdx cols obj.name with
            | some i => vec.set i (MLC.featureValue obj.severity obj.duration)
            | none => vec) init).getD j 0 = MLC.featureValue o.severity o.duration := by
  induction objs generalizing init with
  | nil => exact Or.inl rfl
  | cons o os ih =>
    rw [List.foldl_cons]
    set v := (match MLC.matchIdx cols o.name with
        | some i => init.set i (MLC.featureValue o.severity o.duration)
        | none => init) with hv
    rcases ih v with h | ⟨o', ho', hm, he⟩
    · rcases hmi : MLC.matchIdx cols o.name with _ | i
      · left
        rw [h, hv, hmi]
      · by_cases hij : i = j
        · subst hij
          by_cases hlen : i < init.length
          · right
            refine ⟨o, List.mem_cons_self _ _, hmi, ?_⟩
            rw [h, hv, hmi]
            simp [List.getD_eq_getElem?_getD, List.getElem?_set, hlen]
          · left
            rw [h, hv, hmi]
            simp [List.getD_eq_getElem?_getD, List.getElem?_set, hlen,
              List.getElem?_eq_none (le_of_not_lt hlen)]
        · left
          rw [h, hv, hmi]
          simp [List.getD_eq_getElem?_getD, List.getElem?_set, hij]
    · right
      exact ⟨o', List.mem_cons_of_mem o ho', hm, he⟩

/-- Claim C5 (confirmed): in the graded-severity (legacy) tier every matched symptom
writes `(severityScore / 7.0) * durationMult` into its feature-vector slot, with the
severity table `mild = 2.0, moderate = 4.5, severe = 7.0`, the duration table
`1 day = 0.7, 2-3 days = 1.0, 1 week = 1.3, 2+ weeks = 1.8`, and in particular
`severity = severe, duration = 2+ weeks` yields `(7.0/7.0) * 1.8 = 1.8`, strictly above
`1` (unclipped). -/
theorem C5_theorem (cols : List String) (objs : List SymptomObj) (j : ℕ)
    (_hj : j < cols.length) :
    ((MLC.createFeatureVectorEnhanced cols objs).getD j 0 = 0
      ∨ ∃ o ∈ objs, MLC.matchIdx cols o.name = some j
          ∧ (MLC.createFeatureVectorEnhanced cols objs).getD j 0
            = (MLC.sevWeight o.severity / 7) * MLC.durMult o.duration)
    ∧ MLC.sevWeight "mild" = 2 ∧ MLC.sevWeight "moderate" = 9/2 ∧ MLC.sevWeight "severe" = 7
    ∧ MLC.durMult "1 day" = 7/10 ∧ MLC.durMult "2-3 days" = 1
    ∧ MLC.durMult "1 week" = 13/10 ∧ MLC.durMult "2+ weeks" = 9/5
    ∧ MLC.featureValue "severe" "2+ weeks" = (7/7) * (9/5)
    ∧ (1:ℚ) < MLC.featureValue "severe" "2+ weeks"
    ∧ MLC.createFeatureVectorEnhanced ["high fever"]
        [⟨"high fever", "severe", "2+ weeks"⟩] = [9/5] := by
  refine ⟨?_, by with_unfolding_all decide, by with_unfolding_all decide,
    by with_unfolding_all decide, by with_unfolding_all decide, by with_unfolding_all decide,
    by with_unfolding_all decide, by with_unfolding_all decide, by with_unfolding_all decide,
    by with_unfolding_all decide, by with_unfolding_all decide⟩
  have h := MLC_vec_entry cols objs (List.replicate cols.length 0) j
  have hrep : (List.replicate cols.length (0:ℚ)).getD j 0 = 0 := by
    by_cases hlt : j < cols.length
    · simp [List.getD_eq_getElem?_getD, List.getElem?_replicate, hlt]
    · simp [List.getD_eq_getElem?_getD,
        List.getElem?_eq_none (by simpa using le_of_not_lt hlt)]
  unfold MLC.createFeatureVectorEnhanced
  rcases h with h | ⟨o, ho, hm, he⟩
  · left
    rw [h, hrep]
  · right
    exact ⟨o, ho, hm, he⟩

/-- Claim C5, witness: the column bound and the feature-vector entry for a single
`severe / 2+ weeks` symptom matching the only vocabulary column. -/
theorem C5_witness :
    (0 < (["high fever"] : List String).length)
    ∧ (((MLC.createFeatureVectorEnhanced ["high fever"]
          [⟨"high fever", "severe", "2+ weeks"⟩]).getD 0 0 = 0
      ∨ ∃ o ∈ [(⟨"high fever", "severe", "2+ weeks"⟩ : SymptomObj)],
          MLC.matchIdx ["high fever"] o.name = some 0
          ∧ (MLC.createFeatureVectorEnhanced ["high fever"]
              [⟨"high fever", "severe", "2+ weeks"⟩]).getD 0 0
            = (MLC.sevWeight o.severity / 7) * MLC.durMult o.duration)
      ∧ MLC.sevWeight "mild" = 2 ∧ MLC.sevWeight "moderate" = 9/2 ∧ MLC.sevWeight "severe" = 7
      ∧ MLC.durMult "1 day" = 7/10 ∧ MLC.durMult "2-3 days" = 1
      ∧ MLC.durMult "1 week" = 13/10 ∧ MLC.durMult "2+ weeks" = 9/5
      ∧ MLC.featureValue "severe" "2+ weeks" = (7/7) * (9/5)
      ∧ (1:ℚ) < MLC.featureValue "severe" "2+ weeks"
      ∧ MLC.createFeatureVectorEnhanced ["high fever"]
          [⟨"high fever", "severe", "2+ weeks"⟩] = [9/5]) :=
  ⟨by decide, C5_theorem ["high fever"] [⟨"high fever", "severe", "2+ weeks"⟩] 0 (by decide)⟩

/-! ### Claim C8 -/

/-- An unknown severity falls back to the default multiplier `1.0`, the multiplier of
`moderate`, in the final-augmented weight table. -/
lemma FA_sevMult_unknown (s : String)
    (hs : s.toLower ∉ ["mild", "moderate", "severe", "very severe"]) : FA.sevMult s = 1 := by
  simp only [List.mem_cons, List.not_mem_nil, or_false] at hs
  push_neg at hs
  rw [FA.sevMult, if_neg hs.1, if_neg hs.2.1, if_neg hs.2.2.1, if_neg hs.2.2.2]

/-- An unknown duration falls back to the default multiplier `1.0`, the multiplier of
`1 week`, in the final-augmented weight table. -/
lemma FA_durMult_unknown (d : String)
    (hd : d.toLower ∉ ["less than 1 week", "1 week", "2+ weeks", "more than 1 month"]) :
    FA.durMult d = 1 := by
  simp only [List.mem_cons, List.not_mem_nil, or_false] at hd
  push_neg at hd
  rw [FA.durMult, if_neg hd.1, if_neg hd.2.1, if_neg hd.2.2.1, if_neg hd.2.2.2]

/-- An unknown severity falls back to the default multiplier `1.0`, the multiplier of
`moderate`, in the Columbia weight table. -/
lemma Col_sevMult_unknown (s : String)
    (hs : s.toLower ∉ ["mild", "moderate", "severe", "very severe"]) : Col.sevMult s = 1 := by
  simp only [List.mem_cons, List.not_mem_nil, or_false] at hs
  push_neg at hs
  rw [Col.sevMult, if_neg hs.1, if_neg hs.2.1, if_neg hs.2.2.1, if_neg hs.2.2.2]

/-- An unknown duration falls back to the default multiplier `1.0`, the multiplier of
`1 week`, in the Columbia weight table. -/
lemma Col_durMult_unknown (d : String)
    (hd : d.toLower ∉ ["less than 1 week", "1 week", "2+ weeks", "more than 1 month"]) :
    Col.durMult d = 1 := by
  simp only [List.mem_cons, List.not_mem_nil, or_false] at hd
  push_neg at hd
  rw [Col.durMult, if_neg hd.1, if_neg hd.2.1, if_neg hd.2.2.1, if_neg hd.2.2.2]

/-- Claim C8 (confirmed): a severity string outside the enumerated set yields exactly the
weight of severity `moderate`, and a duration string outside the enumerated set yields
exactly the weight of the default duration `1 week`, in both the final-augmented and the
Columbia weight computations; the computations are total, so unknown values never raise
an error. -/
theorem C8_theorem (b b2 : ℚ) (sev dur sev2 dur2 : String)
    (hs : sev.toLower ∉ ["mild", "moderate", "severe", "very severe"])
    (hd : dur2.toLower ∉ ["less than 1 week", "1 week", "2+ weeks", "more than 1 month"]) :
    (FA.calculateEnhancementWeight b sev dur = FA.calculateEnhancementWeight b "moderate" dur
      ∧ FA.calculateEnhancementWeight b2 sev2 dur2
        = FA.calculateEnhancementWeight b2 sev2 "1 week")
    ∧ (Col.calculateSymptomWeight b sev dur = Col.calculateSymptomWeight b "moderate" dur
      ∧ Col.calculateSymptomWeight b2 sev2 dur2
        = Col.calculateSymptomWeight b2 sev2 "1 week") := by
  have hfm : FA.sevMult "moderate" = 1 := by with_unfolding_all decide
  have hfw : FA.durMult "1 week" = 1 := by with_unfolding_all decide
  have hcm : Col.sevMult "moderate" = 1 := by with_unfolding_all decide
  have hcw : Col.durMult "1 week" = 1 := by with_unfolding_all decide
  refine ⟨⟨?_, ?_⟩, ?_, ?_⟩
  · rw [FA.calculateEnhancementWeight, FA.calculateEnhancementWeight,
      FA_sevMult_unknown sev hs, hfm]
  · rw [FA.calculateEnhancementWeight, FA.calculateEnhancementWeight,
      FA_durMult_unknown dur2 hd, hfw]
  · rw [Col.calculateSymptomWeight, Col.calculateSymptomWeight,
      Col_sevMult_unknown sev hs, hcm]
  · rw [Col.calculateSymptomWeight, Col.calculateSymptomWeight,
      Col_durMult_unknown dur2 hd, hcw]

/-- Claim C8, witness: the out-of-enum values `bananas` (severity) and `forever`
(duration) produce exactly the default-tier weights. -/
theorem C8_witness :
    (FA.calculateEnhancementWeight 2 "bananas" "1 week"
        = FA.calculateEnhancementWeight 2 "moderate" "1 week"
      ∧ FA.calculateEnhancementWeight 3 "mild" "forever"
        = FA.calculateEnhancementWeight 3 "mild" "1 week")
    ∧ (Col.calculateSymptomWeight 2 "bananas" "1 week"
        = Col.calculateSymptomWeight 2 "moderate" "1 week"
      ∧ Col.calculateSymptomWeight 3 "mild" "forever"
        = Col.calculateSymptomWeight 3 "mild" "1 week") :=
  C8_theorem 2 3 "bananas" "1 week" "mild" "forever"
    (by with_unfolding_all decide) (by with_unfolding_all decide)

/-! ### Claim C10 -/

/-- When every symptom fails to normalize, the final-augmented feature builder returns
the all-zeros vector, no enhancement weights and no processed symptoms. -/
lemma FA_vec_unmatched (cols : List String) (baseW : String → ℚ) (objs : List SymptomObj)
    (h : ∀ o ∈ objs, FA.normalizeSymptomName cols o.name = none) :
    FA.createFeatureVectorEnhanced cols baseW objs
      = (List.replicate cols.length 0, [], []) := by
  unfold FA.createFeatureVectorEnhanced
  exact foldl_fixed _ _ _ (fun b a ha => by rw [h a ha])

/-- When every symptom fails to match a column, the legacy feature builder returns the
all-zeros vector. -/
lemma MLC_vec_unmatched (cols : List String) (objs : List SymptomObj)
    (h : ∀ o ∈ objs, MLC.matchIdx cols o.name = none) :
    MLC.createFeatureVectorEnhanced cols objs = List.replicate cols.length 0 := by
  unfold MLC.createFeatureVectorEnhanced
  exact foldl_fixed _ _ _ (fun b a ha => by rw [h a ha])

/-- The two-decimal rendering of the neutral enhancement factor. -/
lemma pyFormat2_one : pyFormat2 1 ++ "x" = "1.00x" := by with_unfolding_all decide

/-- Claim C10 (confirmed): on a nonempty symptom list in which nothing normalizes to the
vocabulary, the final-augmented tier still answers — no error, `processed_symptoms = 0`,
enhancement factor `1.00x`, at most `top_k` predictions, and the answer depends on the
classifier only through its output on the all-zeros feature vector — whereas the legacy
tier returns the single `Insufficient Information` entry of confidence `0` without
consulting its classifier at all. -/
theorem C10_theorem (clf clf2 : List ℚ → List ℚ) (cols mlCols : List String)
    (baseW : String → ℚ) (labels mlLabels : List String) (objs : List SymptomObj)
    (topK topN : ℕ) (hne : objs ≠ [])
    (hFA : ∀ o ∈ objs, FA.normalizeSymptomName cols o.name = none)
    (hML : ∀ o ∈ objs, MLC.matchIdx mlCols o.name = none) :
    ((FA.predictDiseasesEnhanced clf cols baseW labels objs topK).error = none
    ∧ (FA.predictDiseasesEnhanced clf cols baseW labels objs topK).processedSymptoms = 0
    ∧ (FA.predictDiseasesEnhanced clf cols baseW labels objs topK).enhancementFactor
        = "1.00x"
    ∧ (FA.predictDiseasesEnhanced clf cols baseW labels objs topK).predictions.length ≤ topK
    ∧ (clf (List.replicate cols.length 0) = clf2 (List.replicate cols.length 0) →
        FA.predictDiseasesEnhanced clf cols baseW labels objs topK
          = FA.predictDiseasesEnhanced clf2 cols baseW labels objs topK))
    ∧ ((MLC.predictDiseasesEnhanced clf mlCols mlLabels objs topN = [MLC.insufficientEntry]
        ∧ MLC.insufficientEntry.confidence = 0
        ∧ MLC.insufficientEntry.disease = "Insufficient Information")
    ∧ MLC.predictDiseasesEnhanced clf mlCols mlLabels objs topN
        = MLC.predictDiseasesEnhanced clf2 mlCols mlLabels objs topN) := by
  have hv := FA_vec_unmatched cols baseW objs hFA
  have hm := MLC_vec_unmatched mlCols objs hML
  have hml : ∀ c : List ℚ → List ℚ,
      MLC.predictDiseasesEnhanced c mlCols mlLabels objs topN = [MLC.insufficientEntry] := by
    intro c
    simp only [MLC.predictDiseasesEnhanced]
    rw [if_neg hne, hm]
    rw [if_pos (by simp [List.sum_replicate])]
  have hfa : ∀ c : List ℚ → List ℚ,
      FA.predictDiseasesEnhanced c cols baseW labels objs topK =
        { predictions := ((sortDescBy Prod.snd (FA.applyMedicalSafetyConstraints
              (sortDescBy Prod.snd (labels.zip (c (List.replicate cols.length 0))))
              objs.length [])).take topK).map (fun p =>
            { disease := p.1, confidence := p.2,
              confidencePct := pyFormat1 (p.2 * 100) ++ "%",
              recommendation := FA.getDiseaseRecommendation p.1 p.2,
              severityCategory := FA.categorizeDiseaseSeverity p.1 }),
          modelInfo := "final_augmented_enhanced",
          totalSymptoms := objs.length,
          processedSymptoms := 0,
          enhancementFactor := pyFormat2 (FA.avgWeights []) ++ "x",
          error := none } := by
    intro c
    simp only [FA.predictDiseasesEnhanced]
    rw [if_neg hne, hv]
    rfl
  refine ⟨⟨?_, ?_, ?_, ?_, ?_⟩, ⟨hml clf, rfl, rfl⟩, (hml clf).trans (hml clf2).symm⟩
  · rw [hfa clf]
  · rw [hfa clf]
  · rw [hfa clf]
    show pyFormat2 (FA.avgWeights []) ++ "x" = "1.00x"
    have : FA.avgWeights [] = 1 := rfl
    rw [this, pyFormat2_one]
  · rw [hfa clf]
    simp only [List.length_map]
    exact (List.length_take_le _ _)
  · intro hclf
    rw [hfa clf, hfa clf2, hclf]

/-- Claim C10, witness: a single unrecognized symptom `xyz` against the one-word
vocabulary `cough` — the final-augmented tier answers with `1.00x` and no error, the
legacy tier with the `Insufficient Information` entry. -/
theorem C10_witness :
    ((FA.predictDiseasesEnhanced (fun _ => [1/2]) ["cough"] (fun _ => 1) ["Flu"]
        [⟨"xyz", "moderate", "1 week"⟩] 5).error = none
    ∧ (FA.predictDiseasesEnhanced (fun _ => [1/2]) ["cough"] (fun _ => 1) ["Flu"]
        [⟨"xyz", "moderate", "1 week"⟩] 5).enhancementFactor = "1.00x")
    ∧ MLC.predictDiseasesEnhanced (fun _ => [1/2]) ["cough"] ["Flu"]
        [⟨"xyz", "moderate", "1 week"⟩] 5 = [MLC.insufficientEntry] :=
  ⟨⟨(C10_theorem (fun _ => [1/2]) (fun _ => [1/2]) ["cough"] ["cough"] (fun _ => 1)
      ["Flu"] ["Flu"] [⟨"xyz", "moderate", "1 week"⟩] 5 5 (by decide)
      (by with_unfolding_all decide) (by with_unfolding_all decide)).1.1,
    (C10_theorem (fun _ => [1/2]) (fun _ => [1/2]) ["cough"] ["cough"] (fun _ => 1)
      ["Flu"] ["Flu"] [⟨"xyz", "moderate", "1 week"⟩] 5 5 (by decide)
      (by with_unfolding_all decide) (by with_unfolding_all decide)).1.2.2.1⟩,
   (C10_theorem (fun _ => [1/2]) (fun _ => [1/2]) ["cough"] ["cough"] (fun _ => 1)
      ["Flu"] ["Flu"] [⟨"xyz", "moderate", "1 week"⟩] 5 5 (by decide)
      (by with_unfolding_all decide) (by with_unfolding_all decide)).2.1.1⟩
